import Mathlib

/-
Verification of the process-coordination and job-scheduling core:
a shallow embedding of `aiida/brokers/phantom/coordinator.py` and of the
scheduler plugins `direct.py`, `torque.py`, `pbspro.py`, with theorems
settling the spec claims about them.
-/

namespace AiidaCore

/-! ## Python string primitives

Helpers mirroring the exact Python string operations used by the sources:
`re.split(r"\s+", s)`, `re.split("[:.]", s)`, `str.split("-")`, `str.strip()`,
`int(str)`.  All are structural recursions so that concrete inputs evaluate
by `rfl`/`decide`. -/

/-- Whitespace class of Python's `str.strip` and the regex class. -/
def isPyWs (c : Char) : Bool :=
  c = ' ' || c = '\t' || c = '\n' || c = '\r' || c = '\x0b' || c = '\x0c'

/-- Core of splitting on runs of whitespace, as `re.split` with pattern
backslash-s-plus does: the flag records whether we are inside a separator run. -/
def splitWsCore : Bool → List Char → List Char → List (List Char)
  | _, cur, [] => [cur.reverse]
  | false, cur, c :: cs =>
    if isPyWs c then cur.reverse :: splitWsCore true [] cs
    else splitWsCore false (c :: cur) cs
  | true, cur, c :: cs =>
    if isPyWs c then splitWsCore true cur cs
    else splitWsCore false (c :: cur) cs

/-- Python `re.split` on runs of whitespace (empty pieces survive only at the
two ends, exactly as in Python). -/
def splitWs (l : List Char) : List String :=
  (splitWsCore false [] l).map (fun t => String.mk t)

/-- Splitting at every character satisfying `p`, keeping empty pieces, as
Python `re.split` with a single-character class (or `str.split(sep)` for a
one-character separator) does. -/
def splitAtChars (p : Char → Bool) : List Char → List (List Char)
  | [] => [[]]
  | c :: cs =>
    if p c then [] :: splitAtChars p cs
    else
      match splitAtChars p cs with
      | t :: ts => (c :: t) :: ts
      | [] => [[c]]

/-- Python `str.strip()` on a character list. -/
def stripChars (l : List Char) : List Char :=
  ((l.dropWhile isPyWs).reverse.dropWhile isPyWs).reverse

/-- Decimal digit accumulation for `pyInt?`. -/
def decDigitsAux : List Char → Nat → Option Nat
  | [], acc => some acc
  | c :: cs, acc =>
    if c.isDigit then decDigitsAux cs (acc * 10 + (c.toNat - 48)) else none

/-- Python `int(s)` on a string: surrounding whitespace, an optional sign and
ASCII decimal digits (digit-grouping underscores and non-ASCII digits are not
modelled); `none` where Python raises `ValueError`. -/
def pyInt? (s : String) : Option Int :=
  let t := stripChars s.data
  match t with
  | [] => none
  | c :: cs =>
    if c = '-' then
      match cs with
      | [] => none
      | _ => (decDigitsAux cs 0).map (fun n => -(n : Int))
    else if c = '+' then
      match cs with
      | [] => none
      | _ => (decDigitsAux cs 0).map (fun n => (n : Int))
    else (decDigitsAux t 0).map (fun n => (n : Int))

/-! ## Errors

The Python exception types raised by the embedded code. -/

/-- Exceptions of the embedded code: `CoordinatorConnectionError`,
`RuntimeError`, `ValueError`, `SchedulerError`, `IndexError`,
`psutil.NoSuchProcess`, and `exc` for an arbitrary exception propagating out
of a subscriber callback. -/
inductive PyError where
  | connectionError
  | runtimeError (msg : String)
  | valueError (msg : String)
  | schedulerError (msg : String)
  | indexError (msg : String)
  | noSuchProcess (pid : Int)
  | exc (msg : String)
deriving DecidableEq, Repr

/-! ## The in-memory coordinator (`aiida/brokers/phantom/coordinator.py`)

Subscriber callbacks are embedded as pure functions returning an explicit
outcome; a `concurrent.futures.Future` is embedded as its observable state. -/

/-- Outcome of invoking a task subscriber: it returns a result, raises
`TaskRejected`, or raises some other exception (carried as `msg`). -/
inductive TaskOutcome (α : Type) where
  | result (a : α)
  | rejected
  | raises (msg : String)
deriving DecidableEq, Repr

/-- Observable state of a `concurrent.futures.Future`: never resolved,
`set_result`, or `set_exception` (the coordinator wraps the original
exception info in a `RuntimeError`; `msg` carries the original). -/
inductive FutureState (α : Type) where
  | pending
  | resolved (a : α)
  | failed (msg : String)
deriving DecidableEq, Repr

/-- The keyword arguments `broadcast_send` passes to every broadcast
subscriber. -/
structure BroadcastEnvelope (β : Type) where
  body : β
  sender : Option String
  subject : Option String
  correlation_id : Option String
deriving DecidableEq, Repr

/-- A task subscriber callback (the `self` argument carries no information
for the semantics and is dropped). -/
abbrev TaskSub (μ α : Type) := μ → TaskOutcome α

/-- An RPC subscriber callback: returns a value or raises. -/
abbrev RpcSub (μ α : Type) := μ → Except String α

/-- A broadcast subscriber callback: returns `()` or raises. -/
abbrev BcastSub (β : Type) := BroadcastEnvelope β → Except String Unit

/-- Python-dict membership test on an association list. -/
def dictContains (d : List (String × σ)) (k : String) : Bool :=
  d.any (fun p => p.1 == k)

/-- Python-dict assignment `d[k] = v`: replaces in place when the key is
present (keeping its position), appends otherwise. -/
def dictInsert (d : List (String × σ)) (k : String) (v : σ) : List (String × σ) :=
  if dictContains d k then d.map (fun p => if p.1 == k then (k, v) else p)
  else d ++ [(k, v)]

/-- Python-dict lookup `d[k]`. -/
def dictFind (d : List (String × σ)) (k : String) : Option σ :=
  match d with
  | [] => none
  | p :: ps => if p.1 == k then some p.2 else dictFind ps k

/-- Python-dict `d.pop(k)` / `del d[k]`: removes the (unique) entry. -/
def dictErase (d : List (String × σ)) (k : String) : List (String × σ) :=
  d.eraseP (fun p => p.1 == k)

/-- State of `PhantomCoordinator`: the three insertion-ordered subscriber
registries and the closed flag.  The three registries are Python dicts; the
association lists keep insertion order exactly as `dict` iteration does. -/
structure PhantomCoordinator (μ α β : Type) where
  task_subscribers : List (String × TaskSub μ α)
  broadcast_subscribers : List (String × BcastSub β)
  rpc_subscribers : List (String × RpcSub μ α)
  closed : Bool

namespace PhantomCoordinator

variable {μ α β : Type}

/-- Method `is_closed`. -/
def is_closed (c : PhantomCoordinator μ α β) : Bool := c.closed

/-- Method `close`: early-returns when already closed, else sets the flag and
deletes the registries.  The `del` of the three attributes is modelled by
clearing them: every later access goes through `_ensure_open` first, which
raises before the attributes would be touched, so the difference is
unobservable. -/
def close (c : PhantomCoordinator μ α β) : PhantomCoordinator μ α β :=
  if c.closed then c
  else { task_subscribers := [], broadcast_subscribers := [], rpc_subscribers := [], closed := true }

/-- Resolution of `identifier = identifier or shortuuid.uuid()`: Python `or`
falls through on a falsy value, so an explicit empty string is replaced by the
fresh uuid as well; `fresh` stands for the `shortuuid.uuid()` call. -/
def resolveIdent (ident : Option String) (fresh : String) : String :=
  match ident with
  | some s => if s = "" then fresh else s
  | none => fresh

/-- Method `add_rpc_subscriber`: duplicate check against the RPC registry. -/
def add_rpc_subscriber (c : PhantomCoordinator μ α β) (subscriber : RpcSub μ α)
    (ident : Option String) (fresh : String) :
    Except PyError (String × PhantomCoordinator μ α β) :=
  if c.closed then .error .connectionError
  else
    let identifier := resolveIdent ident fresh
    if dictContains c.rpc_subscribers identifier then
      .error (.runtimeError ("Duplicate RPC subscriber with identifier " ++ identifier))
    else .ok (identifier, { c with rpc_subscribers := dictInsert c.rpc_subscribers identifier subscriber })

/-- Method `remove_rpc_subscriber`. -/
def remove_rpc_subscriber (c : PhantomCoordinator μ α β) (identifier : String) :
    Except PyError (PhantomCoordinator μ α β) :=
  if c.closed then .error .connectionError
  else
    match dictFind c.rpc_subscribers identifier with
    | none => .error (.valueError ("Unknown subscriber " ++ identifier))
    | some _ => .ok { c with rpc_subscribers := dictErase c.rpc_subscribers identifier }

/-- Method `add_task_subscriber`.  The source checks the duplicate identifier
against `self._rpc_subscribers`, not against `self._task_subscribers` (its
error message also says RPC); the embedding reproduces that check verbatim:
a duplicate task identifier therefore silently overwrites via `dictInsert`,
while an identifier held by the RPC registry is rejected. -/
def add_task_subscriber (c : PhantomCoordinator μ α β) (subscriber : TaskSub μ α)
    (ident : Option String) (fresh : String) :
    Except PyError (String × PhantomCoordinator μ α β) :=
  if c.closed then .error .connectionError
  else
    let identifier := resolveIdent ident fresh
    if dictContains c.rpc_subscribers identifier then
      .error (.runtimeError ("Duplicate RPC subscriber with identifier " ++ identifier))
    else .ok (identifier, { c with task_subscribers := dictInsert c.task_subscribers identifier subscriber })

/-- Method `remove_task_subscriber`. -/
def remove_task_subscriber (c : PhantomCoordinator μ α β) (identifier : String) :
    Except PyError (PhantomCoordinator μ α β) :=
  if c.closed then .error .connectionError
  else
    match dictFind c.task_subscribers identifier with
    | none => .error (.valueError ("Unknown subscriber: " ++ identifier))
    | some _ => .ok { c with task_subscribers := dictErase c.task_subscribers identifier }

/-- Method `add_broadcast_subscriber`: the duplicate check is against the
broadcast registry itself (only the message text wrongly says RPC);
`subject_filters` and `sender_filters` are accepted and discarded, exactly as
in the source, which never stores them. -/
def add_broadcast_subscriber (c : PhantomCoordinator μ α β) (subscriber : BcastSub β)
    (subject_filters sender_filters : Option (List String))
    (ident : Option String) (fresh : String) :
    Except PyError (String × PhantomCoordinator μ α β) :=
  if c.closed then .error .connectionError
  else
    let identifier := resolveIdent ident fresh
    if dictContains c.broadcast_subscribers identifier then
      .error (.runtimeError ("Duplicate RPC subscriber with identifier " ++ identifier))
    else .ok (identifier, { c with broadcast_subscribers := dictInsert c.broadcast_subscribers identifier subscriber })

/-- Method `remove_broadcast_subscriber`. -/
def remove_broadcast_subscriber (c : PhantomCoordinator μ α β) (identifier : String) :
    Except PyError (PhantomCoordinator μ α β) :=
  if c.closed then .error .connectionError
  else
    match dictFind c.broadcast_subscribers identifier with
    | none => .error (.valueError ("Broadcast subscriber " ++ identifier ++ " unknown"))
    | some _ => .ok { c with broadcast_subscribers := dictErase c.broadcast_subscribers identifier }

end PhantomCoordinator

/-- The delivery loop of `task_send`, instrumented with the list of the
identifiers of the subscribers that were actually invoked: first non-rejecting
subscriber resolves or fails the future and ends the loop; a `TaskRejected`
moves on to the next subscriber; an empty or all-rejecting chain leaves the
future pending. -/
def taskRun {μ α : Type} (subs : List (String × TaskSub μ α)) (msg : μ) :
    List String × FutureState α :=
  match subs with
  | [] => ([], .pending)
  | (i, s) :: rest =>
    match s msg with
    | .result a => ([i], .resolved a)
    | .raises e => ([i], .failed e)
    | .rejected =>
      let r := taskRun rest msg
      (i :: r.1, r.2)

/-- The delivery loop of `broadcast_send`, instrumented with the identifiers
invoked: subscribers are called in registration order and a raised exception
propagates at once, so the loop ends with the raiser. -/
def broadcastRun {β : Type} (subs : List (String × BcastSub β)) (env : BroadcastEnvelope β) :
    List String × Option String :=
  match subs with
  | [] => ([], none)
  | (i, s) :: rest =>
    match s env with
    | .ok _ =>
      let r := broadcastRun rest env
      (i :: r.1, r.2)
    | .error e => ([i], some e)

/-- The single invocation `rpc_send` performs, instrumented with the list of
messages the subscriber is applied to (always exactly one): `set_result` on
a return, `set_exception` on a raise (the source wraps the exception info in a
`RuntimeError`; the payload carried is the original exception). -/
def rpcInvoke {μ α : Type} (sub : RpcSub μ α) (msg : μ) : List μ × FutureState α :=
  ([msg], match sub msg with
          | .ok a => .resolved a
          | .error e => .failed e)

namespace PhantomCoordinator

variable {μ α β : Type}

/-- Method `task_send`: offers `msg` along the task-subscriber chain and
returns the future (or `none` when `no_reply`). -/
def task_send (c : PhantomCoordinator μ α β) (msg : μ) (no_reply : Bool) :
    Except PyError (Option (FutureState α)) :=
  if c.closed then .error .connectionError
  else
    let fut := (taskRun c.task_subscribers msg).2
    .ok (if no_reply then none else some fut)

/-- Method `rpc_send`: raises synchronously on an unknown recipient (no
future is created); otherwise invokes the one subscriber and returns the
future resolved with its return value or failure. -/
def rpc_send (c : PhantomCoordinator μ α β) (recipient_id : String) (msg : μ) :
    Except PyError (List μ × FutureState α) :=
  if c.closed then .error .connectionError
  else
    match dictFind c.rpc_subscribers recipient_id with
    | none => .error (.runtimeError ("Unknown rpc recipient " ++ recipient_id))
    | some subscriber => .ok (rpcInvoke subscriber msg)

/-- Method `broadcast_send`: calls every broadcast subscriber in turn with the
envelope; an exception raised by a subscriber propagates out of the loop
(there is no handler around the call); returns `True` when the loop
completes. -/
def broadcast_send (c : PhantomCoordinator μ α β) (env : BroadcastEnvelope β) :
    Except PyError Bool :=
  if c.closed then .error .connectionError
  else
    match (broadcastRun c.broadcast_subscribers env).2 with
    | some e => .error (.exc e)
    | none => .ok true

end PhantomCoordinator

/-! ## Job model and the direct scheduler (`aiida/schedulers/plugins/direct.py`) -/

/-- The `JobState` enumeration. -/
inductive JobState where
  | UNDETERMINED
  | QUEUED
  | QUEUED_HELD
  | RUNNING
  | SUSPENDED
  | DONE
deriving DecidableEq, Repr

/-- The fields of `JobInfo` that `DirectScheduler.get_jobs` fills in. -/
structure JobInfo where
  job_id : String
  job_state : JobState
  job_owner : Option String
  wallclock_time_seconds : Option Int
deriving DecidableEq, Repr

/-- The `_MAP_STATUS_PS` lookup table of `direct.py`. -/
def mapStatusPs (c : Char) : Option JobState :=
  if c = 'D' then some .RUNNING
  else if c = 'I' then some .RUNNING
  else if c = 'R' then some .RUNNING
  else if c = 'S' then some .RUNNING
  else if c = 'T' then some .SUSPENDED
  else if c = 'U' then some .RUNNING
  else if c = 'W' then some .RUNNING
  else if c = 'X' then some .DONE
  else if c = 'Z' then some .DONE
  else if c = '?' then some .UNDETERMINED
  else none

/-- The time-field parsing of `DirectScheduler.get_jobs` (direct.py lines
204-247): split the string at every colon or period, require exactly three
pieces, strip an optional `days-` lead from the first piece, parse the
components and reject negatives.  `none` is returned exactly where the source
raises-and-catches `ValueError`, leaving the wallclock field unset. -/
def parseTimeString (s : String) : Option Int :=
  match splitAtChars (fun c => c = ':' || c = '.') s.data with
  | [p0, p1, p2] =>
    let firstPieces := splitAtChars (fun c => c = '-') p0
    let dh : Option Int × List Char :=
      match firstPieces with
      | [d, h] => (pyInt? (String.mk d), h)
      | _ => (some 0, p0)
    match dh.1 with
    | none => none
    | some days =>
      match pyInt? (String.mk dh.2) with
      | none => none
      | some hours =>
        if hours < 0 then none
        else
          match pyInt? (String.mk p1) with
          | none => none
          | some mins =>
            if mins < 0 then none
            else
              match pyInt? (String.mk p2) with
              | none => none
              | some secs =>
                if secs < 0 then none
                else some (days * 86400 + hours * 3600 + mins * 60 + secs)
  | _ => none

/-- Skip condition of the parsing loop:
`re.search(r"^\s*PID", line) or line == ""`. -/
def isHeaderOrEmpty (line : List Char) : Bool :=
  line.isEmpty || (line.dropWhile isPyWs).take 3 == ['P', 'I', 'D']

/-- Parsing of one `ps` output line (direct.py lines 178-250).  The line is
left-stripped and split on whitespace runs; fewer than three fields is a hard
`SchedulerError`; the state character is looked up in `_MAP_STATUS_PS` with
unknown or missing characters giving `UNDETERMINED`.  The time field is read
as `job[3]`: `job` is a Python list, so a missing fourth field raises
`IndexError`, which the surrounding `try` (catching only `KeyError` and
`ValueError`) does not stop — it propagates and aborts the whole call.  A
present-but-malformed time field is the caught `ValueError` path and leaves
the wallclock unset. -/
def parsePsLine (line : List Char) : Except PyError JobInfo :=
  let job := splitWs (line.dropWhile isPyWs)
  let jid := job.headD ""
  if job.length < 3 then .error (.schedulerError "Unexpected output from the scheduler, not enough fields")
  else
    let jstate :=
      match (job.getD 1 "").data.head? with
      | none => JobState.UNDETERMINED
      | some ch => (mapStatusPs ch).getD JobState.UNDETERMINED
    let owner := job.getD 2 ""
    if 4 ≤ job.length then
      .ok { job_id := jid, job_state := jstate, job_owner := some owner,
            wallclock_time_seconds := parseTimeString (job.getD 3 "") }
    else .error (.indexError "list index out of range")

/-- The line loop of `DirectScheduler.get_jobs`: header and empty lines are
skipped, every other line is parsed, and a raised error aborts the whole
loop. -/
def parsePsLines : List (List Char) → Except PyError (List JobInfo)
  | [] => .ok []
  | l :: ls =>
    if isHeaderOrEmpty l then parsePsLines ls
    else
      match parsePsLine l with
      | .error e => .error e
      | .ok j =>
        match parsePsLines ls with
        | .error e => .error e
        | .ok rest => .ok (j :: rest)

/-- The synthesis step of `DirectScheduler.get_jobs` (direct.py lines
252-263): one `DONE` record, with owner and wallclock unset, for every
requested id absent from the parsed output.  The Python `set` difference is
iterated in an unspecified order; the embedding fixes first-occurrence order,
which is faithful up to membership. -/
def synthDone (jobs found : List String) : List JobInfo :=
  ((jobs.filter (fun j => !(found.contains j))).dedup).map
    (fun j => { job_id := j, job_state := .DONE, job_owner := none, wallclock_time_seconds := none })

/-- `DirectScheduler.get_jobs` from the transport reply onward (direct.py
lines 161-265), in the list form (`as_dict=False`), with `jobs` the explicit
job-id filter (the annotated `list[str] | None` type; `none` is the empty
list): a non-empty stderr together with a non-zero exit status is a hard
error; otherwise the stdout lines are parsed and the missing requested ids
are appended as synthesized `DONE` records. -/
def direct_get_jobs (jobs : List String) (retval : Int) (stdout stderr : String) :
    Except PyError (List JobInfo) :=
  if !(stripChars stderr.data).isEmpty && retval != 0 then
    .error (.schedulerError "Error during direct execution parsing")
  else
    match parsePsLines (splitAtChars (fun c => c = '\n') stdout.data) with
    | .error e => .error e
    | .ok job_list =>
      let found := job_list.map JobInfo.job_id
      .ok (job_list ++ (if jobs.isEmpty then [] else synthDone jobs found))

/-! ## Kill-command result parsing -/

/-- The result parsing of `DirectScheduler.kill_job` (direct.py lines
291-308): `False` on a non-zero exit status; text on stderr or stdout is only
logged as a warning and `True` is returned. -/
def direct_parse_kill_output (retval : Int) (stdout stderr : String) : Bool :=
  if retval != 0 then false
  else true

/-- Modelled from the spec: `PbsBaseClass._parse_kill_output`, which
`TorqueScheduler.kill_job` and `PbsproScheduler.kill_job` delegate to, lives
in `pbsbaseclasses.py`, a file not present under the sources; per the spec the
kill operation returns false on non-zero exit and true otherwise, with stderr
or stdout text only logged. -/
def pbs_parse_kill_output (retval : Int) (stdout stderr : String) : Bool :=
  if retval != 0 then false
  else true

/-- Lookup of a pid in the local process table (the processes psutil can see,
each with its recursively enumerated descendant pids). -/
def pidFind (procs : List (Int × List Int)) (pid : Int) : Option (List Int) :=
  match procs with
  | [] => none
  | p :: ps => if p.1 == pid then some p.2 else pidFind ps pid

/-- The kill command `DirectScheduler.kill_job` builds (direct.py lines
283-287): the job pid followed by its descendants. -/
def direct_kill_command (pid : Int) (children : List Int) : String :=
  "kill " ++ String.intercalate " " ((pid :: children).map toString)

/-- `DirectScheduler.kill_job` (direct.py lines 267-308) from its inputs: the
local process table standing for what psutil sees, the job id string, and
the transport reply `(retval, stdout, stderr)` for the kill command.  Before
any transport call the source runs `Process(int(jobid))` and
`process.children(recursive=True)`: a job id that does not parse as an
integer raises `ValueError`, and a pid whose process is gone raises
`psutil.NoSuchProcess` - both escape `kill_job` with no transport
involvement.  Only with a live pid is the kill command issued and its output
parsed by `direct_parse_kill_output`. -/
def direct_kill_job (procs : List (Int × List Int)) (jobid : String)
    (retval : Int) (stdout stderr : String) : Except PyError Bool :=
  match pyInt? jobid with
  | none => .error (.valueError ("invalid literal for int: " ++ jobid))
  | some pid =>
    match pidFind procs pid with
    | none => .error (.noSuchProcess pid)
    | some _children => .ok (direct_parse_kill_output retval stdout stderr)

/-! ## PBS-family resource lines (`pbspro.py`, `torque.py`) -/

/-- A Python value that may be handed to `int(...)` in the resource-line
generators: an integer or a string (floats are outside the embedding). -/
inductive PyVal where
  | int (n : Int)
  | str (s : String)
deriving DecidableEq, Repr

/-- Python `int(v)`: identity on integers, `pyInt?` on strings. -/
def pyIntOf : PyVal → Option Int
  | .int n => some n
  | .str s => pyInt? s

/-- Python truthiness of an optional integer (absent and zero are falsy). -/
def truthyInt : Option Int → Bool
  | none => false
  | some n => n != 0

/-- Python truthiness of an optional `PyVal`. -/
def truthyVal : Option PyVal → Bool
  | none => false
  | some (.int n) => n != 0
  | some (.str s) => s != ""

/-- Python `f"{n:02d}"`: the decimal rendering left-padded with a zero to
width two. -/
def pad2 (n : Int) : String :=
  let s := toString n
  if s.length < 2 then "0" ++ s else s

/-- The `HH:MM:SS` walltime rendering shared by `pbspro.py` lines 135-139 and
`torque.py` lines 127-133: hours are the total seconds divided by 3600 and
the remainder is split into minutes and seconds. -/
def walltimeHMS (tot_secs : Int) : String :=
  pad2 (tot_secs / 3600) ++ ":" ++ pad2 (tot_secs % 3600 / 60) ++ ":" ++ pad2 (tot_secs % 3600 % 60)

/-- The error message raised for a bad `max_wallclock_seconds`. -/
def wallclockErrMsg : String := "max_wallclock_seconds must be a positive integer (in seconds)"

/-- The error message raised for a bad `max_memory_kb`. -/
def memoryErrMsg : String := "max_memory_kb must be a positive integer (in kB)"

/-- The select string built by `PbsproScheduler._get_resource_lines` before
the memory suffix. -/
def pbsproSelect (num_machines : Int) (num_mpiprocs_per_machine num_cores_per_machine : Option Int) :
    String :=
  let s1 := "select=" ++ toString num_machines
  let s2 := if truthyInt num_mpiprocs_per_machine then
      s1 ++ ":mpiprocs=" ++ toString (num_mpiprocs_per_machine.getD 0)
    else s1
  if truthyInt num_cores_per_machine then
    s2 ++ ":ncpus=" ++ toString (num_cores_per_machine.getD 0)
  else s2

/-- `PbsproScheduler._get_resource_lines` (pbspro.py lines 107-151): a
walltime line `#PBS -l walltime=HH:MM:SS` when `max_wallclock_seconds` is
given (raising `ValueError` unless it converts to a positive integer),
followed by the `#PBS -l select=...` line carrying the optional memory
suffix. -/
def pbspro_get_resource_lines (num_machines : Int)
    (num_mpiprocs_per_machine num_cores_per_machine : Option Int)
    (max_memory_kb max_wallclock_seconds : Option PyVal) :
    Except PyError (List String) :=
  let sel := pbsproSelect num_machines num_mpiprocs_per_machine num_cores_per_machine
  let wt : Except PyError (List String) :=
    match max_wallclock_seconds with
    | none => .ok []
    | some v =>
      match pyIntOf v with
      | none => .error (.valueError wallclockErrMsg)
      | some tot_secs =>
        if tot_secs ≤ 0 then .error (.valueError wallclockErrMsg)
        else .ok ["#PBS -l walltime=" ++ walltimeHMS tot_secs]
  match wt with
  | .error e => .error e
  | .ok wtLines =>
    let memSuffix : Except PyError String :=
      if truthyVal max_memory_kb then
        match pyIntOf (max_memory_kb.getD (.int 0)) with
        | none => .error (.valueError memoryErrMsg)
        | some m =>
          if m ≤ 0 then .error (.valueError memoryErrMsg)
          else .ok (":mem=" ++ toString m ++ "kb")
      else .ok ""
    match memSuffix with
    | .error e => .error e
    | .ok ms => .ok (wtLines ++ ["#PBS -l " ++ sel ++ ms])

/-- The select string built by `TorqueScheduler._get_resource_lines` before
walltime and memory are appended: `ppn` comes from the cores count when that
is truthy, else from the mpiprocs count. -/
def torqueSelect (num_machines : Int) (num_mpiprocs_per_machine num_cores_per_machine : Option Int) :
    String :=
  let s1 := "nodes=" ++ toString num_machines
  if truthyInt num_cores_per_machine then
    s1 ++ ":ppn=" ++ toString (num_cores_per_machine.getD 0)
  else if truthyInt num_mpiprocs_per_machine then
    s1 ++ ":ppn=" ++ toString (num_mpiprocs_per_machine.getD 0)
  else s1

/-- `TorqueScheduler._get_resource_lines` (torque.py lines 100-147): a single
`#PBS -l` line whose select string carries `,walltime=HH:MM:SS` when
`max_wallclock_seconds` is given (raising `ValueError` unless it converts to
a positive integer) and `,mem=...kb` when `max_memory_kb` is truthy. -/
def torque_get_resource_lines (num_machines : Int)
    (num_mpiprocs_per_machine num_cores_per_machine : Option Int)
    (max_memory_kb max_wallclock_seconds : Option PyVal) :
    Except PyError (List String) :=
  let sel := torqueSelect num_machines num_mpiprocs_per_machine num_cores_per_machine
  let wt : Except PyError String :=
    match max_wallclock_seconds with
    | none => .ok ""
    | some v =>
      match pyIntOf v with
      | none => .error (.valueError wallclockErrMsg)
      | some tot_secs =>
        if tot_secs ≤ 0 then .error (.valueError wallclockErrMsg)
        else .ok ("," ++ "walltime=" ++ walltimeHMS tot_secs)
  match wt with
  | .error e => .error e
  | .ok wtSuffix =>
    let memSuffix : Except PyError String :=
      if truthyVal max_memory_kb then
        match pyIntOf (max_memory_kb.getD (.int 0)) with
        | none => .error (.valueError memoryErrMsg)
        | some m =>
          if m ≤ 0 then .error (.valueError memoryErrMsg)
          else .ok ("," ++ "mem=" ++ toString m ++ "kb")
      else .ok ""
    match memSuffix with
    | .error e => .error e
    | .ok ms => .ok ["#PBS -l " ++ sel ++ wtSuffix ++ ms]

/-! ## Helper lemmas on the delivery loops -/

/-- Rejecting subscribers at the front of the chain are invoked and skipped:
the loop continues on the remaining chain. -/
theorem taskRun_append_rejected {μ α : Type} (pre rest : List (String × TaskSub μ α)) (msg : μ)
    (hpre : ∀ p ∈ pre, p.2 msg = TaskOutcome.rejected) :
    taskRun (pre ++ rest) msg =
      (pre.map Prod.fst ++ (taskRun rest msg).1, (taskRun rest msg).2) := by
  induction pre with
  | nil => simp
  | cons p ps ih =>
    have ihr := ih (fun q hq => hpre q (by simp [hq]))
    cases p with
    | mk i s =>
      have hp : s msg = TaskOutcome.rejected := hpre (i, s) (by simp)
      simp only [List.cons_append, taskRun, hp, List.map_cons, List.append_eq, ihr]

/-- Broadcast subscribers that return normally pass the loop on to the rest
of the chain. -/
theorem broadcastRun_append_ok {β : Type} (pre rest : List (String × BcastSub β))
    (env : BroadcastEnvelope β) (hpre : ∀ p ∈ pre, p.2 env = Except.ok ()) :
    broadcastRun (pre ++ rest) env =
      (pre.map Prod.fst ++ (broadcastRun rest env).1, (broadcastRun rest env).2) := by
  induction pre with
  | nil => simp
  | cons p ps ih =>
    have ihr := ih (fun q hq => hpre q (by simp [hq]))
    cases p with
    | mk i s =>
      have hp : s env = Except.ok () := hpre (i, s) (by simp)
      simp only [List.cons_append, broadcastRun, hp, List.map_cons, List.append_eq, ihr]

/-- A chain of subscribers that all return normally is traversed in full with
no propagated exception. -/
theorem broadcastRun_all_ok {β : Type} (subs : List (String × BcastSub β))
    (env : BroadcastEnvelope β) (h : ∀ p ∈ subs, p.2 env = Except.ok ()) :
    broadcastRun subs env = (subs.map Prod.fst, none) := by
  have h2 := broadcastRun_append_ok subs [] env h
  simpa [broadcastRun] using h2

/-! ## Claim theorems -/

/-- C5: `close()` is idempotent, `is_closed()` answers true afterwards, and
every registry operation (add/remove for task, RPC, broadcast) and every send
operation (`task_send`, `rpc_send`, `broadcast_send`) on the closed
coordinator fails with the connection-closed error. -/
theorem claim_C5_close_semantics {μ α β : Type} (c : PhantomCoordinator μ α β)
    (tsub : TaskSub μ α) (rsub : RpcSub μ α) (bsub : BcastSub β)
    (ident : Option String) (fresh identifier recipient : String) (msg : μ)
    (nr : Bool) (env : BroadcastEnvelope β) :
    c.close.close = c.close ∧
    c.close.is_closed = true ∧
    c.close.add_task_subscriber tsub ident fresh = .error .connectionError ∧
    c.close.remove_task_subscriber identifier = .error .connectionError ∧
    c.close.add_rpc_subscriber rsub ident fresh = .error .connectionError ∧
    c.close.remove_rpc_subscriber identifier = .error .connectionError ∧
    c.close.add_broadcast_subscriber bsub none none ident fresh = .error .connectionError ∧
    c.close.remove_broadcast_subscriber identifier = .error .connectionError ∧
    c.close.task_send msg nr = .error .connectionError ∧
    c.close.rpc_send recipient msg = .error .connectionError ∧
    c.close.broadcast_send env = .error .connectionError := by
  have h : c.close.closed = true := by
    by_cases hc : c.closed <;> simp [PhantomCoordinator.close, hc]
  refine ⟨?_, ?_, ?_, ?_, ?_, ?_, ?_, ?_, ?_, ?_, ?_⟩
  · show PhantomCoordinator.close c.close = c.close
    rw [PhantomCoordinator.close, if_pos h]
  all_goals
    simp [PhantomCoordinator.is_closed, PhantomCoordinator.add_task_subscriber,
      PhantomCoordinator.remove_task_subscriber, PhantomCoordinator.add_rpc_subscriber,
      PhantomCoordinator.remove_rpc_subscriber, PhantomCoordinator.add_broadcast_subscriber,
      PhantomCoordinator.remove_broadcast_subscriber, PhantomCoordinator.task_send,
      PhantomCoordinator.rpc_send, PhantomCoordinator.broadcast_send, h]

/-- C9 counterexample: the direct backend raises before any transport call.
With the job process already exited (the poll/kill race), `Process(int(jobid))`
raises `psutil.NoSuchProcess`; with a malformed job id, `int(jobid)` raises
`ValueError`.  Neither input is a refused kill nor a transport failure - the
transport reply supplied here would have reported success. -/
theorem claim_C9_counterexample :
    direct_kill_job [] "123" 0 "" "" = Except.error (.noSuchProcess 123) ∧
    direct_kill_job [(5, [])] "abc" 0 "" "" =
      Except.error (.valueError "invalid literal for int: abc") :=
  ⟨rfl, rfl⟩

/-- C9 amended: for the PBS family (Torque, PBSPro) the kill result is false
exactly when the kill command exits non-zero and text on stderr or stdout
never changes it (a refused kill never raises); the direct backend behaves
the same once the kill command has been issued (a live pid), but before any
transport call it enumerates the job process locally via psutil - a job id
that does not parse as an integer raises `ValueError`, and a pid whose
process has already exited raises `psutil.NoSuchProcess`. -/
theorem claim_C9_kill_raises (retval : Int) (stdout stderr stdout2 stderr2 : String)
    (procs : List (Int × List Int)) (jobid : String) :
    (pbs_parse_kill_output retval stdout stderr = decide (retval = 0)) ∧
    pbs_parse_kill_output retval stdout stderr = pbs_parse_kill_output retval stdout2 stderr2 ∧
    (∀ pid kids, pyInt? jobid = some pid → pidFind procs pid = some kids →
      direct_kill_job procs jobid retval stdout stderr = Except.ok (decide (retval = 0)) ∧
      direct_kill_job procs jobid retval stdout stderr =
        direct_kill_job procs jobid retval stdout2 stderr2) ∧
    (pyInt? jobid = none →
      direct_kill_job procs jobid retval stdout stderr =
        Except.error (.valueError ("invalid literal for int: " ++ jobid))) ∧
    (∀ pid, pyInt? jobid = some pid → pidFind procs pid = none →
      direct_kill_job procs jobid retval stdout stderr = Except.error (.noSuchProcess pid)) := by
  refine ⟨?_, ?_, fun pid kids hp hk => ⟨?_, ?_⟩, fun hn => ?_, fun pid hp hk => ?_⟩
  · by_cases h : retval = 0 <;> simp [pbs_parse_kill_output, h]
  · simp [pbs_parse_kill_output]
  · by_cases h : retval = 0 <;>
      simp [direct_kill_job, hp, hk, direct_parse_kill_output, h]
  · simp [direct_kill_job, hp, hk, direct_parse_kill_output]
  · simp [direct_kill_job, hn]
  · simp [direct_kill_job, hp, hk]

/-- C9 amended, witness: with pid 7 alive (descendants 8 and 9) and the kill
command refused with exit status 1, `kill_job` returns false without
raising. -/
theorem claim_C9_kill_raises_witness :
    direct_kill_job [(7, [8, 9])] "7" 1 "" "kill: no permission" = Except.ok false := by
  have h := claim_C9_kill_raises 1 "" "kill: no permission" "" "" [(7, [8, 9])] "7"
  exact (h.2.2.1 7 [8, 9] rfl rfl).1

/-- C8: the time strings `1-02:03:04` and `02:03:04` decompose as claimed; a
malformed component (`ab:03:04`) or a wrong piece count (`02:03`) is a caught
`ValueError` leaving the wallclock unset without stopping the remaining
records; but a line with no fourth column raises `IndexError` out of
`get_jobs` (the handler next to the may-not-have-started comment catches
`KeyError`, which a Python list never raises), aborting the whole call —
the failing input the claim does not survive. -/
theorem claim_C8_time_parsing_eval :
    parseTimeString "1-02:03:04" = some 93784 ∧
    parseTimeString "02:03:04" = some 7384 ∧
    parseTimeString "ab:03:04" = none ∧
    parseTimeString "02:03" = none ∧
    parsePsLines ["10 R alice ab:03:04".data, "11 R bob 00:01:05".data] =
      .ok [{ job_id := "10", job_state := .RUNNING, job_owner := some "alice",
             wallclock_time_seconds := none },
           { job_id := "11", job_state := .RUNNING, job_owner := some "bob",
             wallclock_time_seconds := some 65 }] ∧
    parsePsLines ["12 R carol".data, "11 R bob 00:01:05".data] =
      .error (.indexError "list index out of range") ∧
    direct_get_jobs ["12"] 0 "12 R carol\n" "" =
      .error (.indexError "list index out of range") :=
  ⟨rfl, rfl, rfl, rfl, rfl, rfl, rfl⟩

/-- C1: evaluation of the registration bug.  On a coordinator whose task
registry already holds `id1`, registering a second task subscriber under the
explicit identifier `id1` does not fail — it succeeds returning `id1` and
silently overwrites (the registry still has one entry); and on a coordinator
whose RPC registry holds `x`, registering a task subscriber under `x` is
rejected although `x` lives in a different mapping: `add_task_subscriber`
checks the RPC registry instead of the task registry. -/
theorem claim_C1_task_registry_eval :
    (Except.map Prod.fst
      (PhantomCoordinator.add_task_subscriber
        ({ task_subscribers := [("id1", fun _ => TaskOutcome.result 1)],
           broadcast_subscribers := [], rpc_subscribers := [],
           closed := false } : PhantomCoordinator Nat Nat Nat)
        (fun _ => TaskOutcome.result 2) (some "id1") "uuid1") = Except.ok "id1") ∧
    (Except.map (fun p => p.2.task_subscribers.length)
      (PhantomCoordinator.add_task_subscriber
        ({ task_subscribers := [("id1", fun _ => TaskOutcome.result 1)],
           broadcast_subscribers := [], rpc_subscribers := [],
           closed := false } : PhantomCoordinator Nat Nat Nat)
        (fun _ => TaskOutcome.result 2) (some "id1") "uuid1") = Except.ok 1) ∧
    (PhantomCoordinator.add_task_subscriber
        ({ task_subscribers := [], broadcast_subscribers := [],
           rpc_subscribers := [("x", fun n => Except.ok n)],
           closed := false } : PhantomCoordinator Nat Nat Nat)
        (fun _ => TaskOutcome.result 1) (some "x") "uuid2" =
      Except.error (.runtimeError "Duplicate RPC subscriber with identifier x")) :=
  ⟨rfl, rfl, rfl⟩

/-- C2 counterexample: with two registered broadcast subscribers of which the
first raises, the delivery loop invokes only the first — the exception
propagates out of `broadcast_send` and the second subscriber is never
invoked, so a single subscriber failure does stop delivery to the rest. -/
theorem claim_C2_counterexample :
    broadcastRun
      [("a", fun _ => Except.error "boom"), ("b", fun _ => Except.ok ())]
      ({ body := 0, sender := none, subject := none,
         correlation_id := none } : BroadcastEnvelope Nat) =
      (["a"], some "boom") ∧
    PhantomCoordinator.broadcast_send
      ({ task_subscribers := [], rpc_subscribers := [],
         broadcast_subscribers := [("a", fun _ => Except.error "boom"), ("b", fun _ => Except.ok ())],
         closed := false } : PhantomCoordinator Nat Nat Nat)
      { body := 0, sender := none, subject := none, correlation_id := none } =
      Except.error (.exc "boom") :=
  ⟨rfl, rfl⟩

/-- C2 amended: `broadcast_send` invokes the broadcast subscribers in
registration order; when no subscriber raises, every subscriber is invoked
with the envelope and the call returns true; when a subscriber raises, its
exception propagates out of `broadcast_send` and the subscribers registered
after it are not invoked. -/
theorem claim_C2_broadcast_fanout {μ α β : Type}
    (pre post : List (String × BcastSub β)) (i : String) (s : BcastSub β)
    (env : BroadcastEnvelope β)
    (ts : List (String × TaskSub μ α)) (rs : List (String × RpcSub μ α))
    (hpre : ∀ p ∈ pre, p.2 env = Except.ok ()) :
    (∀ e, s env = Except.error e →
      broadcastRun (pre ++ (i, s) :: post) env = (pre.map Prod.fst ++ [i], some e) ∧
      PhantomCoordinator.broadcast_send
        { task_subscribers := ts, broadcast_subscribers := pre ++ (i, s) :: post,
          rpc_subscribers := rs, closed := false } env = Except.error (.exc e)) ∧
    (s env = Except.ok () → (∀ p ∈ post, p.2 env = Except.ok ()) →
      broadcastRun (pre ++ (i, s) :: post) env = ((pre ++ (i, s) :: post).map Prod.fst, none) ∧
      PhantomCoordinator.broadcast_send
        { task_subscribers := ts, broadcast_subscribers := pre ++ (i, s) :: post,
          rpc_subscribers := rs, closed := false } env = Except.ok true) := by
  constructor
  · intro e he
    have hrun : broadcastRun (pre ++ (i, s) :: post) env = (pre.map Prod.fst ++ [i], some e) := by
      rw [broadcastRun_append_ok pre ((i, s) :: post) env hpre]
      simp [broadcastRun, he]
    refine ⟨hrun, ?_⟩
    simp [PhantomCoordinator.broadcast_send, hrun]
  · intro hs hpost
    have hall : ∀ p ∈ pre ++ (i, s) :: post, p.2 env = Except.ok () := by
      intro p hp
      rcases List.mem_append.mp hp with h1 | h2
      · exact hpre p h1
      · rcases List.mem_cons.mp h2 with h3 | h4
        · rw [h3]; exact hs
        · exact hpost p h4
    have hrun := broadcastRun_all_ok (pre ++ (i, s) :: post) env hall
    refine ⟨hrun, ?_⟩
    simp [PhantomCoordinator.broadcast_send, hrun]

/-- C2 amended, witness: a concrete chain ok-raise-ok invokes exactly the
first two subscribers and the exception propagates. -/
theorem claim_C2_broadcast_fanout_witness :
    broadcastRun
      [("a", fun _ => Except.ok ()), ("b", fun _ => Except.error "boom"),
       ("c", fun _ => Except.ok ())]
      ({ body := 0, sender := none, subject := none,
         correlation_id := none } : BroadcastEnvelope Nat) = (["a", "b"], some "boom") :=
 by
  have h := claim_C2_broadcast_fanout (μ := Nat) (α := Nat)
      [("a", fun _ => Except.ok ())] [("c", fun _ => Except.ok ())] "b"
      (fun _ => Except.error "boom")
      { body := 0, sender := none, subject := none, correlation_id := none }
      [] [] (by intro p hp; simp at hp; rw [hp])
  exact (h.1 "boom" rfl).1

/-- C3 counterexample: `task_send` with `no_reply=false` on an open
coordinator with zero task subscribers neither raises nor resolves — it
returns a future that is still pending and can never be resolved, the very
outcome the claim rules out. -/
theorem claim_C3_counterexample :
    PhantomCoordinator.task_send
      ({ task_subscribers := [], broadcast_subscribers := [], rpc_subscribers := [],
         closed := false } : PhantomCoordinator Nat Nat Nat) 0 false =
      Except.ok (some FutureState.pending) :=
  rfl

/-- C3 amended: on an open coordinator with zero task subscribers, or all of
whose task subscribers reject the message, `task_send` with `no_reply=false`
returns successfully a future that is left pending — no error is raised and
the deferred value never resolves. -/
theorem claim_C3_no_taker_pending {μ α β : Type} (c : PhantomCoordinator μ α β) (msg : μ)
    (hopen : c.closed = false)
    (hrej : ∀ p ∈ c.task_subscribers, p.2 msg = TaskOutcome.rejected) :
    c.task_send msg false = Except.ok (some FutureState.pending) ∧
    taskRun c.task_subscribers msg = (c.task_subscribers.map Prod.fst, FutureState.pending) := by
  have hrun : taskRun c.task_subscribers msg =
      (c.task_subscribers.map Prod.fst, FutureState.pending) := by
    have h2 := taskRun_append_rejected c.task_subscribers [] msg hrej
    simpa [taskRun] using h2
  exact ⟨by simp [PhantomCoordinator.task_send, hopen, hrun], hrun⟩

/-- C3 amended, witness: one always-rejecting subscriber leaves the future
pending. -/
theorem claim_C3_no_taker_pending_witness :
    PhantomCoordinator.task_send
      ({ task_subscribers := [("t", fun _ => TaskOutcome.rejected)],
         broadcast_subscribers := [], rpc_subscribers := [],
         closed := false } : PhantomCoordinator Nat Nat Nat) 0 false =
      Except.ok (some FutureState.pending) :=
  (claim_C3_no_taker_pending
    ({ task_subscribers := [("t", fun _ => TaskOutcome.rejected)],
       broadcast_subscribers := [], rpc_subscribers := [],
       closed := false } : PhantomCoordinator Nat Nat Nat) 0 rfl
    (by intro p hp; simp at hp; rw [hp])).1

/-- C4: `task_send` offers the message to the task subscribers in
registration order and stops at the first one that does not reject: after a
run of rejecting subscribers, a subscriber returning a result resolves the
future with that result, and one raising a non-rejection exception fails the
future with the original error; in both cases the invocation trace is exactly
the rejecting run plus the stopping subscriber, so the later subscribers are
never invoked. -/
theorem claim_C4_task_send_order {μ α β : Type}
    (pre post : List (String × TaskSub μ α)) (i : String) (s : TaskSub μ α) (msg : μ)
    (bs : List (String × BcastSub β)) (rs : List (String × RpcSub μ α))
    (hpre : ∀ p ∈ pre, p.2 msg = TaskOutcome.rejected) :
    (∀ a, s msg = TaskOutcome.result a →
      taskRun (pre ++ (i, s) :: post) msg = (pre.map Prod.fst ++ [i], FutureState.resolved a) ∧
      PhantomCoordinator.task_send
        { task_subscribers := pre ++ (i, s) :: post, broadcast_subscribers := bs,
          rpc_subscribers := rs, closed := false } msg false =
        Except.ok (some (FutureState.resolved a))) ∧
    (∀ e, s msg = TaskOutcome.raises e →
      taskRun (pre ++ (i, s) :: post) msg = (pre.map Prod.fst ++ [i], FutureState.failed e) ∧
      PhantomCoordinator.task_send
        { task_subscribers := pre ++ (i, s) :: post, broadcast_subscribers := bs,
          rpc_subscribers := rs, closed := false } msg false =
        Except.ok (some (FutureState.failed e))) := by
  constructor
  · intro a ha
    have hrun : taskRun (pre ++ (i, s) :: post) msg =
        (pre.map Prod.fst ++ [i], FutureState.resolved a) := by
      rw [taskRun_append_rejected pre ((i, s) :: post) msg hpre]
      simp [taskRun, ha]
    exact ⟨hrun, by simp [PhantomCoordinator.task_send, hrun]⟩
  · intro e he
    have hrun : taskRun (pre ++ (i, s) :: post) msg =
        (pre.map Prod.fst ++ [i], FutureState.failed e) := by
      rw [taskRun_append_rejected pre ((i, s) :: post) msg hpre]
      simp [taskRun, he]
    exact ⟨hrun, by simp [PhantomCoordinator.task_send, hrun]⟩

/-- C4, witness: the chain reject-reject-return-42 resolves the future to 42
and invokes exactly the three subscribers in order. -/
theorem claim_C4_task_send_order_witness :
    PhantomCoordinator.task_send
      ({ task_subscribers :=
           [("r1", fun _ => TaskOutcome.rejected), ("r2", fun _ => TaskOutcome.rejected),
            ("ok1", fun _ => TaskOutcome.result 42)],
         broadcast_subscribers := [], rpc_subscribers := [],
         closed := false } : PhantomCoordinator Nat Nat Nat) 0 false =
      Except.ok (some (FutureState.resolved 42)) := by
  have h := claim_C4_task_send_order (β := Nat)
      [("r1", fun _ => TaskOutcome.rejected), ("r2", fun _ => TaskOutcome.rejected)]
      [] "ok1" (fun _ => TaskOutcome.result 42) 0 [] []
      (by intro p hp
          simp only [List.mem_cons, List.not_mem_nil, or_false] at hp
          rcases hp with h | h <;> rw [h])
  exact (h.1 42 rfl).2

/-- C6: `rpc_send` to an unregistered recipient raises `RuntimeError`
synchronously and no future is created; to a registered recipient it invokes
that subscriber exactly once (the invocation trace is the one message) and
returns a future resolved with the subscriber return value, or failed with
the raised error. -/
theorem claim_C6_rpc_send {μ α β : Type} (c : PhantomCoordinator μ α β)
    (recipient : String) (msg : μ) (hopen : c.closed = false) :
    (dictFind c.rpc_subscribers recipient = none →
      c.rpc_send recipient msg =
        Except.error (.runtimeError ("Unknown rpc recipient " ++ recipient))) ∧
    (∀ sub, dictFind c.rpc_subscribers recipient = some sub →
      c.rpc_send recipient msg = Except.ok (rpcInvoke sub msg) ∧
      (rpcInvoke sub msg).1 = [msg] ∧
      (∀ a, sub msg = Except.ok a → (rpcInvoke sub msg).2 = FutureState.resolved a) ∧
      (∀ e, sub msg = Except.error e → (rpcInvoke sub msg).2 = FutureState.failed e)) := by
  refine ⟨fun hnone => ?_, fun sub hsub => ⟨?_, rfl, fun a ha => ?_, fun e he => ?_⟩⟩
  · simp [PhantomCoordinator.rpc_send, hopen, hnone]
  · simp [PhantomCoordinator.rpc_send, hopen, hsub]
  · simp [rpcInvoke, ha]
  · simp [rpcInvoke, he]

/-- C6, witness: a registered increment subscriber is invoked once on message
5 and the future resolves with 6. -/
theorem claim_C6_rpc_send_witness :
    PhantomCoordinator.rpc_send
      ({ task_subscribers := [], broadcast_subscribers := [],
         rpc_subscribers := [("r", fun n => Except.ok (n + 1))],
         closed := false } : PhantomCoordinator Nat Nat Nat) "r" 5 =
      Except.ok ([5], FutureState.resolved 6) := by
  have h := claim_C6_rpc_send
      ({ task_subscribers := [], broadcast_subscribers := [],
         rpc_subscribers := [("r", fun n => Except.ok (n + 1))],
         closed := false } : PhantomCoordinator Nat Nat Nat) "r" 5 rfl
  exact (h.2 (fun n => Except.ok (n + 1)) rfl).1

/-- C7: with a non-empty explicit job-id filter, a successful `get_jobs`
returns the parsed records followed by exactly the synthesized part: every
requested id absent from the parsed output is present in it as a `DONE`
record with owner and wallclock unset, and no synthesized record carries an
id that did appear in the parsed output. -/
theorem claim_C7_synthesized_done (jobs : List String) (retval : Int)
    (stdout stderr : String) (job_list res : List JobInfo)
    (hjobs : jobs ≠ [])
    (hparse : parsePsLines (splitAtChars (fun c => c = '\n') stdout.data) =
      Except.ok job_list)
    (hok : direct_get_jobs jobs retval stdout stderr = Except.ok res) :
    res = job_list ++ synthDone jobs (job_list.map JobInfo.job_id) ∧
    (∀ j ∈ jobs, j ∉ job_list.map JobInfo.job_id →
      ({ job_id := j, job_state := .DONE, job_owner := none,
         wallclock_time_seconds := none } : JobInfo) ∈
        synthDone jobs (job_list.map JobInfo.job_id)) ∧
    (∀ j ∈ job_list.map JobInfo.job_id,
      ∀ r ∈ synthDone jobs (job_list.map JobInfo.job_id), r.job_id ≠ j) := by
  have hsplit : res = job_list ++ synthDone jobs (job_list.map JobInfo.job_id) := by
    rw [direct_get_jobs] at hok
    by_cases hg : (!(stripChars stderr.data).isEmpty && retval != 0) = true
    · rw [if_pos hg] at hok
      exact absurd hok (by simp)
    · rw [if_neg hg] at hok
      rw [hparse] at hok
      have hne : jobs.isEmpty = false := by
        cases jobs with
        | nil => exact absurd rfl hjobs
        | cons a l => rfl
      rw [hne] at hok
      simpa using hok.symm
  refine ⟨hsplit, fun j hj hnotin => ?_, fun j hjfound r hr => ?_⟩
  · unfold synthDone
    refine List.mem_map.mpr ⟨j, ?_, rfl⟩
    refine List.mem_dedup.mpr (List.mem_filter.mpr ⟨hj, ?_⟩)
    simp [hnotin]
  · unfold synthDone at hr
    rcases List.mem_map.mp hr with ⟨j0, hj0, hj0eq⟩
    have hj0f := List.mem_filter.mp (List.mem_dedup.mp hj0)
    have hj0notin : j0 ∉ job_list.map JobInfo.job_id := by
      have hb := hj0f.2
      simpa using hb
    intro hcontra
    have hj0j : j0 = j := by rw [← hcontra, ← hj0eq]
    exact hj0notin (by rw [hj0j]; exact hjfound)

/-- C7, witness: for the filter containing a present id 10 and an absent id
99 the synthesized part holds the `DONE` record for 99 only. -/
theorem claim_C7_synthesized_done_witness :
    ({ job_id := "99", job_state := .DONE, job_owner := none,
       wallclock_time_seconds := none } : JobInfo) ∈
      synthDone ["10", "99"] ["10"] := by
  have h := claim_C7_synthesized_done ["10", "99"] 0 "10 R alice 00:00:05\n" ""
      [{ job_id := "10", job_state := .RUNNING, job_owner := some "alice",
         wallclock_time_seconds := some 5 }]
      [{ job_id := "10", job_state := .RUNNING, job_owner := some "alice",
         wallclock_time_seconds := some 5 },
       { job_id := "99", job_state := .DONE, job_owner := none,
         wallclock_time_seconds := none }]
      (by simp) rfl rfl
  exact h.2.1 "99" (by simp) (by simp)

/-- Decimal rendering of an integer between 0 and 59 padded to width two has
exactly two characters. -/
theorem pad2_length_two (n : Int) (h0 : 0 ≤ n) (h1 : n < 60) : (pad2 n).length = 2 := by
  interval_cases n <;> decide

/-- C10: for a positive integer wallclock limit, both PBS-family generators
emit the walltime directive rendered from the division of the total seconds
(hours, then minutes and seconds of the remainder), the three components
recompose to the exact total with minutes and seconds in `[0, 60)` rendered
as zero-padded two-character fields; a non-positive integer or a string that
does not parse as an integer raises `ValueError` and no directive is
emitted. -/
theorem claim_C10_walltime_directive (t : Int) (ht : 0 < t) (nm : Int) (mp nc : Option Int) :
    pbspro_get_resource_lines nm mp nc none (some (.int t)) =
      .ok ["#PBS -l walltime=" ++ walltimeHMS t, "#PBS -l " ++ pbsproSelect nm mp nc] ∧
    torque_get_resource_lines nm mp nc none (some (.int t)) =
      .ok ["#PBS -l " ++ (torqueSelect nm mp nc ++ ("," ++ "walltime=" ++ walltimeHMS t))] ∧
    walltimeHMS t = pad2 (t / 3600) ++ ":" ++ pad2 (t % 3600 / 60) ++ ":" ++ pad2 (t % 3600 % 60) ∧
    t / 3600 * 3600 + t % 3600 / 60 * 60 + t % 3600 % 60 = t ∧
    0 ≤ t % 3600 / 60 ∧ t % 3600 / 60 < 60 ∧ 0 ≤ t % 3600 % 60 ∧ t % 3600 % 60 < 60 ∧
    (pad2 (t % 3600 / 60)).length = 2 ∧ (pad2 (t % 3600 % 60)).length = 2 ∧
    (∀ u : Int, u ≤ 0 →
      pbspro_get_resource_lines nm mp nc none (some (.int u)) =
        .error (.valueError wallclockErrMsg) ∧
      torque_get_resource_lines nm mp nc none (some (.int u)) =
        .error (.valueError wallclockErrMsg)) ∧
    (∀ s : String, pyInt? s = none →
      pbspro_get_resource_lines nm mp nc none (some (.str s)) =
        .error (.valueError wallclockErrMsg) ∧
      torque_get_resource_lines nm mp nc none (some (.str s)) =
        .error (.valueError wallclockErrMsg)) := by
  have hnot : ¬ t ≤ 0 := by omega
  have hm0 : 0 ≤ t % 3600 / 60 := by omega
  have hm1 : t % 3600 / 60 < 60 := by omega
  have hs0 : 0 ≤ t % 3600 % 60 := by omega
  have hs1 : t % 3600 % 60 < 60 := by omega
  refine ⟨?_, ?_, rfl, by omega, hm0, hm1, hs0, hs1,
    pad2_length_two _ hm0 hm1, pad2_length_two _ hs0 hs1, ?_, ?_⟩
  · simp [pbspro_get_resource_lines, pyIntOf, truthyVal, hnot]
  · simp [torque_get_resource_lines, pyIntOf, truthyVal, hnot,
      String.append_assoc, String.append_empty]
  · intro u hu
    constructor <;>
      simp [pbspro_get_resource_lines, torque_get_resource_lines, pyIntOf, hu]
  · intro s hs
    constructor <;>
      simp [pbspro_get_resource_lines, torque_get_resource_lines, pyIntOf, hs]

/-- C10, witness: 93784 seconds render as the directive `walltime=26:03:04`
in both generators. -/
theorem claim_C10_walltime_directive_witness :
    pbspro_get_resource_lines 1 none none none (some (.int 93784)) =
      .ok ["#PBS -l walltime=26:03:04", "#PBS -l select=1"] ∧
    torque_get_resource_lines 1 none none none (some (.int 93784)) =
      .ok ["#PBS -l nodes=1,walltime=26:03:04"] := by
  have h := claim_C10_walltime_directive 93784 (by decide) 1 none none
  exact ⟨h.1, h.2.1⟩

end AiidaCore
